import Mathlib

/-!
Shallow embedding of `Net/src/HTTPClientSession.cpp` (Poco HTTP client session,
with debug logging added by this fork) and proofs about its behaviour.

External collaborators (the transport socket, HTTP message parsing and
serialization, the regular-expression engine, the basic-credentials encoder)
are modelled as parameters or as simple value-level stand-ins; the control
flow of `HTTPClientSession` itself is translated statement by statement.
-/

namespace HTTPClient

/-- Error kinds surfaced by the session (IllegalStateException,
network/IO exceptions, HTTPException from proxy CONNECT). -/
inductive SessionError
  | stateError
  | networkError
  | proxyError (reason : String)
deriving Repr, DecidableEq

/-- `HTTPClientSession::ProxyConfig`: proxy host, port, credentials and the
non-proxy-hosts pattern. A default-constructed config has empty host and
port 80 (`HTTP_PORT`). -/
structure ProxyConfig where
  host : String
  port : Nat
  username : String
  password : String
  nonProxyHosts : String
deriving Repr, DecidableEq

/-- The default-constructed `ProxyConfig` (empty host, `HTTP_PORT`, no
credentials, no bypass pattern). -/
def ProxyConfig.empty : ProxyConfig :=
  { host := "", port := 80, username := "", password := "", nonProxyHosts := "" }

/-- An `HTTPRequest` value object (external collaborator): method, URI,
version, header list, and the framing-relevant accessors the session reads
(`getChunkedTransferEncoding`, `hasContentLength`/`getContentLength64`,
keep-alive). -/
structure Request where
  method : String
  uri : String
  version : String
  headers : List (String × String)
  chunked : Bool
  contentLength : Option Nat
  keepAlive : Bool
deriving Repr, DecidableEq

/-- `NameValueCollection::has`: whether a header with the given name is
present. -/
def Request.hasHeader (r : Request) (name : String) : Bool :=
  r.headers.any (fun h => h.1 = name)

/-- `NameValueCollection::set`: replace the value of an existing header of
that name, or append the header. -/
def Request.setHeader (r : Request) (name value : String) : Request :=
  if r.hasHeader name then
    { r with headers := r.headers.map (fun h => if h.1 = name then (name, value) else h) }
  else
    { r with headers := r.headers ++ [(name, value)] }

/-- `NameValueCollection::get`: the value of the first header with the given
name, if any. -/
def Request.getHeader (r : Request) (name : String) : Option String :=
  (r.headers.find? (fun h => h.1 = name)).map (fun h => h.2)

/-- `HTTPRequest::setHost(host, port)` (collaborator): records the target in
the `Host` header. -/
def Request.setHostHeader (r : Request) (host : String) (port : Nat) : Request :=
  r.setHeader "Host" (host ++ ":" ++ toString port)

/-- The serialized request head (request line plus header block plus the
final empty line), as `HTTPRequest::write` emits it; only its byte count
matters to the session (via `Poco::CountingOutputStream`). -/
def Request.serializedHead (r : Request) : String :=
  r.method ++ " " ++ r.uri ++ " " ++ r.version ++ "\r\n" ++
  (r.headers.foldr (fun h acc => h.1 ++ ": " ++ h.2 ++ "\r\n" ++ acc) "") ++ "\r\n"

/-- `cs.chars()` after a trial `request.write(cs)` into a
`Poco::CountingOutputStream`: the byte count of the serialized head. -/
def Request.headByteCount (r : Request) : Nat :=
  r.serializedHead.length

/-- An `HTTPResponse` value object (external collaborator): the fields the
session reads (`getStatus`, `getReason`, chunked flag, content length,
keep-alive). -/
structure Response where
  status : Nat
  reason : String
  chunked : Bool
  contentLength : Option Nat
  keepAlive : Bool
deriving Repr, DecidableEq

/-- The body-framing stream constructed over the session
(`HTTPChunkedeStream` / `HTTPFixedLengthStream` / plain `HTTPStream`). -/
inductive StreamKind
  | chunked
  | fixedLength (length : Nat)
  | unbounded
deriving Repr, DecidableEq

/-- The session state: target and proxy configuration, keep-alive clock
fields, the `_reconnect` / `_mustReconnect` / `_expectResponseBody` /
`_responseReceived` flags, the transport's connected state, a recorded
network exception (`HTTPSession::networkException`), and the two stream
handles. -/
structure Session where
  host : String
  port : Nat
  proxyConfig : ProxyConfig
  keepAliveTimeout : Int
  lastRequest : Int
  keepAlive : Bool
  reconnectFlag : Bool
  mustReconnectFlag : Bool
  expectResponseBody : Bool
  responseReceived : Bool
  connected : Bool
  netException : Bool
  pRequestStream : Option StreamKind
  pResponseStream : Option StreamKind
deriving Repr, DecidableEq

/-- `HTTPSession::close`: drops the transport connection. -/
def Session.close (s : Session) : Session :=
  { s with connected := false }

/-- `HTTPClientSession::setHost`: rejected with an `IllegalStateException`
while connected. -/
def Session.setHost (s : Session) (host : String) : Except SessionError Session :=
  if !s.connected then .ok { s with host := host }
  else .error .stateError

/-- `HTTPClientSession::setPort`: rejected while connected. -/
def Session.setPort (s : Session) (port : Nat) : Except SessionError Session :=
  if !s.connected then .ok { s with port := port }
  else .error .stateError

/-- `HTTPClientSession::setProxy`: rejected while connected. -/
def Session.setProxy (s : Session) (host : String) (port : Nat) :
    Except SessionError Session :=
  if !s.connected then
    .ok { s with proxyConfig := { s.proxyConfig with host := host, port := port } }
  else .error .stateError

/-- `HTTPClientSession::setProxyHost`: rejected while connected. -/
def Session.setProxyHost (s : Session) (host : String) : Except SessionError Session :=
  if !s.connected then .ok { s with proxyConfig := { s.proxyConfig with host := host } }
  else .error .stateError

/-- `HTTPClientSession::setProxyPort`: rejected while connected. -/
def Session.setProxyPort (s : Session) (port : Nat) : Except SessionError Session :=
  if !s.connected then .ok { s with proxyConfig := { s.proxyConfig with port := port } }
  else .error .stateError

/-- `HTTPClientSession::setProxyCredentials`: sets username and password
unconditionally — the source performs no `connected()` check here. -/
def Session.setProxyCredentials (s : Session) (username password : String) :
    Except SessionError Session :=
  .ok { s with proxyConfig :=
    { s.proxyConfig with username := username, password := password } }

/-- `HTTPClientSession::setProxyUsername`: unconditional in the source. -/
def Session.setProxyUsername (s : Session) (username : String) :
    Except SessionError Session :=
  .ok { s with proxyConfig := { s.proxyConfig with username := username } }

/-- `HTTPClientSession::setProxyPassword`: unconditional in the source. -/
def Session.setProxyPassword (s : Session) (password : String) :
    Except SessionError Session :=
  .ok { s with proxyConfig := { s.proxyConfig with password := password } }

/-- `HTTPClientSession::setProxyConfig`: unconditional in the source. -/
def Session.setProxyConfig (s : Session) (config : ProxyConfig) :
    Except SessionError Session :=
  .ok { s with proxyConfig := config }

/-- `HTTPClientSession::mustReconnect`: true when the forced-reconnect flag
is set, otherwise true iff the keep-alive timeout has elapsed since the last
request (`_keepAliveTimeout <= now - _lastRequest`). -/
def Session.mustReconnect (s : Session) (now : Int) : Bool :=
  if !s.mustReconnectFlag then
    decide (s.keepAliveTimeout ≤ now - s.lastRequest)
  else true

/-- `HTTPClientSession::bypassProxy`: with a non-empty non-proxy-hosts
pattern, delegate to `RegularExpression::match` over the target host with
`RE_CASELESS | RE_ANCHORED` — modelled by the collaborator parameter
`caselessAnchoredMatch` (host, pattern); with an empty pattern, never
bypass. -/
def Session.bypassProxy (s : Session)
    (caselessAnchoredMatch : String → String → Bool) : Bool :=
  if s.proxyConfig.nonProxyHosts ≠ "" then
    caselessAnchoredMatch s.host s.proxyConfig.nonProxyHosts
  else false

/-- Modelled from the spec: the credential-encoder collaborator
(`HTTPBasicCredentials::proxyAuthenticate`, not under `src/`): given
username and password it mutates the request to carry proxy
authentication, i.e. sets a `Proxy-Authorization` header from the
credentials. -/
def credProxyAuthenticate (username password : String) (r : Request) : Request :=
  r.setHeader "Proxy-Authorization" ("Basic " ++ username ++ ":" ++ password)

/-- `HTTPClientSession::proxyAuthenticateImpl`: only with a non-empty proxy
username are `HTTPBasicCredentials` built and applied to the request. -/
def Session.proxyAuthenticateImpl (cfg : ProxyConfig) (r : Request) : Request :=
  if cfg.username ≠ "" then
    credProxyAuthenticate cfg.username cfg.password r
  else r

/-- `HTTPClientSession::proxyRequestPrefix`: `"http://" + host + ":" + port`. -/
def Session.proxyRequestPrefixStr (s : Session) : String :=
  "http://" ++ s.host ++ ":" ++ toString s.port

/-- Failure injection for the external transport during `sendRequest`:
whether the `connect` inside `reconnect()` throws, and whether writing the
serialized request head to the transport throws. -/
structure Faults where
  connectFails : Bool
  headWriteFails : Bool
deriving Repr, DecidableEq

/-- Everything observable about one `sendRequest` call: the outcome, the
session state afterwards, the request object after the session's mutations,
whether the transport was connected after the initial keep-alive close
decision, whether `reconnect()` was invoked, and whether the request head
was written through `_pRequestStream` itself. -/
structure SendOutcome where
  result : Except SessionError Unit
  state : Session
  request : Request
  connectedBeforeReconnect : Bool
  reconnectAttempted : Bool
  headViaRequestStream : Bool
deriving Repr

/-- `HTTPClientSession::sendRequest`, statement by statement.

A note on the reconnect step: the source reads

```
if (!connected())
    _logger.debug("sendRequest: Reconnect Start : " + request.getURI());
    reconnect();
    _logger.debug("sendRequest: Reconnect Done : " + request.getURI());
```

with no braces, so the `if` condition guards only the first debug-log
statement; `reconnect()` itself executes unconditionally, on every call,
even when the transport is already connected. The embedding reproduces
that: `reconnectAttempted` is true on every path that reaches the `try`
block (which is every path).

The statements of the `try` block are factored into named stages below
(`applyKeepAlive`, `applyHostHeader`, `applyProxyRewrite`,
`requestStreamKind`), applied here in source order. -/
def Session.applyKeepAlive (keepAlive : Bool) (req : Request) : Request :=
  if !keepAlive then { req with keepAlive := false } else req

/-- The Host-header step of `sendRequest`: if the request has no `Host`
header and a host is configured, set it from the session's host and port. -/
def Session.applyHostHeader (s : Session) (req : Request) : Request :=
  if !req.hasHeader "Host" && s.host ≠ "" then
    req.setHostHeader s.host s.port
  else req

/-- The proxy step of `sendRequest`: with a configured, non-bypassed proxy,
prepend `proxyRequestPrefix` to the target URI and run
`proxyAuthenticate` (→ `proxyAuthenticateImpl`). -/
def Session.applyProxyRewrite (s : Session)
    (caselessAnchoredMatch : String → String → Bool) (req : Request) : Request :=
  if s.proxyConfig.host ≠ "" && !s.bypassProxy caselessAnchoredMatch then
    Session.proxyAuthenticateImpl s.proxyConfig
      { req with uri := s.proxyRequestPrefixStr ++ req.uri }
  else req

/-- The request-side framing selection of `sendRequest`, in source order:
chunked transfer encoding wins; else a declared content length gives a
fixed-length output stream sized to that length plus the byte count of the
serialized head (`cs.chars()` of the trial counting write); else a method
that is none of PUT/POST/PATCH, or a request with an `Upgrade` header,
gives a fixed-length stream of exactly the head byte count; otherwise the
unbounded `HTTPOutputStream`. -/
def requestStreamKind (r : Request) : StreamKind :=
  if r.chunked then .chunked
  else
    match r.contentLength with
    | some n => .fixedLength (n + r.headByteCount)
    | none =>
      if (r.method ≠ "PUT" && r.method ≠ "POST" && r.method ≠ "PATCH")
          || r.hasHeader "Upgrade" then
        .fixedLength r.headByteCount
      else .unbounded

/-- The initial close decision of `sendRequest`: if the transport is
connected and keep-alive is off, or the forced-reconnect check fires, and a
host is configured, close the transport and clear the forced-reconnect
flag. -/
def Session.initialClose (s : Session) (now : Int) (keepAlive : Bool) : Session :=
  if ((s.connected && !keepAlive) || s.mustReconnect now) && s.host ≠ "" then
    { s with connected := false, mustReconnectFlag := false }
  else s

/-- `HTTPClientSession::sendRequest` (see the stage comments above). In the
chunked branch the head is written through a separate
`HTTPHeaderOutputStream` before `_pRequestStream` is constructed, so a head
write failure there leaves the handle null; in every other branch the head
is written through the freshly constructed `_pRequestStream`, so a failure
leaves that handle set. The `catch` clause closes the transport and
rethrows. On success `_lastRequest` is updated to the current time. -/
def Session.sendRequest (s : Session) (req : Request)
    (caselessAnchoredMatch : String → String → Bool)
    (io : Faults) (now : Int) : SendOutcome :=
  let s1 : Session :=
    { s with pRequestStream := none, pResponseStream := none,
             netException := false, responseReceived := false }
  let keepAlive := s1.keepAlive
  let s2 : Session := s1.initialClose now keepAlive
  let connectedBefore := s2.connected
  -- try block begins; reconnect() runs unconditionally (see doc comment)
  if io.connectFails then
    { result := .error .networkError, state := s2.close, request := req,
      connectedBeforeReconnect := connectedBefore, reconnectAttempted := true,
      headViaRequestStream := false }
  else
    let s3 : Session := { s2 with connected := true }
    let req3 :=
      s3.applyProxyRewrite caselessAnchoredMatch
        (s3.applyHostHeader (Session.applyKeepAlive keepAlive req))
    let s4 : Session :=
      { s3 with reconnectFlag := keepAlive,
                expectResponseBody := req3.method ≠ "HEAD" }
    let kind := requestStreamKind req3
    if io.headWriteFails then
      { result := .error .networkError,
        state := Session.close
          (if req3.chunked then s4
           else { s4 with pRequestStream := some kind }),
        request := req3,
        connectedBeforeReconnect := connectedBefore, reconnectAttempted := true,
        headViaRequestStream := false }
    else
      { result := .ok (),
        state := { s4 with pRequestStream := some kind, lastRequest := now },
        request := req3,
        connectedBeforeReconnect := connectedBefore, reconnectAttempted := true,
        headViaRequestStream := !req3.chunked }

/-- `HTTPClientSession::flushRequest`: drop the output-stream handle, then
rethrow any recorded network exception. -/
def Session.flushRequest (s : Session) : Except SessionError Unit × Session :=
  let s1 : Session := { s with pRequestStream := none }
  if s1.netException then (.error .networkError, s1) else (.ok (), s1)

/-- `HTTPClientSession::reset`: unconditionally close the transport. -/
def Session.reset (s : Session) : Session :=
  s.close

/-- Outcome of one transport-level write attempt
(`HTTPSession::write` → `StreamSocket::sendBytes`). -/
inductive WriteAttempt
  | ok (rc : Int)
  | ioError
deriving Repr, DecidableEq

/-- Everything observable about one `HTTPClientSession::write` call: the
outcome, the state afterwards, and the list of buffers actually handed to
the transport, each tagged with the connection generation it was written on
(the generation increments when the session closes and reconnects). -/
structure WriteOutcome where
  result : Except SessionError Int
  state : Session
  sent : List (String × Nat)
deriving Repr

/-- `HTTPClientSession::write`: try the transport write; on success clear
`_reconnect` and return. On an `IOException` (which `HTTPSession::write`
records via `setException` before rethrowing): if `_reconnect` is set,
close, reconnect, retry the same buffer once, clear the recorded exception
and `_reconnect` on success; if the retry also fails, the exception
propagates (no further retry). If `_reconnect` is clear, the failure
propagates unchanged. `oracle i` is the transport's behaviour on the i-th
attempt. -/
def Session.write (s : Session) (oracle : Nat → WriteAttempt) (buffer : String) :
    WriteOutcome :=
  match oracle 0 with
  | .ok rc =>
      { result := .ok rc, state := { s with reconnectFlag := false },
        sent := [(buffer, 0)] }
  | .ioError =>
      let s1 : Session := { s with netException := true }
      if s1.reconnectFlag then
        let s2 := s1.close
        let s3 : Session := { s2 with connected := true }
        match oracle 1 with
        | .ok rc =>
            { result := .ok rc,
              state := { s3 with netException := false, reconnectFlag := false },
              sent := [(buffer, 0), (buffer, 1)] }
        | .ioError =>
            { result := .error .networkError,
              state := { s3 with netException := true },
              sent := [(buffer, 0), (buffer, 1)] }
      else
        { result := .error .networkError, state := s1, sent := [(buffer, 0)] }

/-- Everything observable about one `peekResponse` call: the returned
boolean (or the propagated failure), the session state afterwards, and the
response object left in the caller's variable. -/
structure PeekOutcome where
  result : Except SessionError Bool
  state : Session
  response : Option Response
deriving Repr

/-- `HTTPClientSession::peekResponse`: assert `!_responseReceived`
(modelled as a state error), flush the request stream, rethrow a recorded
network exception, read one response head (`readResult`, `none` when
reading throws: close and rethrow), set `_responseReceived` to whether the
status differs from `HTTP_CONTINUE` (100), and return
`!_responseReceived`. -/
def Session.peekResponse (s : Session) (readResult : Option Response) : PeekOutcome :=
  if s.responseReceived then
    { result := .error .stateError, state := s, response := none }
  else if s.netException then
    { result := .error .networkError, state := s, response := none }
  else
    match readResult with
    | none =>
        { result := .error .networkError, state := s.close, response := none }
    | some resp =>
        let received := decide (resp.status ≠ 100)
        { result := .ok (!received),
          state := { s with responseReceived := received },
          response := some resp }

/-- The response-side framing selection of `receiveResponse`: length-0
fixed stream when no body is expected or the status is informational /
no-content / not-modified; otherwise chunked wins over content-length;
otherwise a fixed-length stream of the declared length; otherwise the
close-delimited `HTTPInputStream`. -/
def responseStreamKind (expectResponseBody : Bool) (resp : Response) : StreamKind :=
  if !expectResponseBody || resp.status < 200 || resp.status == 204
      || resp.status == 304 then
    .fixedLength 0
  else if resp.chunked then
    .chunked
  else
    match resp.contentLength with
    | some n => .fixedLength n
    | none => .unbounded

/-- The header-reading loop of `receiveResponse`: read a response head and
repeat while the status is `HTTP_CONTINUE` (100). `reads` is the sequence
of heads the transport yields; running out models a read failure. -/
def drainContinues : List Response → Option Response
  | [] => none
  | r :: rs => if r.status = 100 then drainContinues rs else some r

/-- Everything observable about one `receiveResponse` call. -/
structure ReceiveOutcome where
  result : Except SessionError StreamKind
  state : Session
  response : Option Response
deriving Repr

/-- `HTTPClientSession::receiveResponse`: flush the request (rethrowing a
recorded network exception), and unless a response was already received
(`peekResponse`), read heads in a loop while the status is 100 — a read
failure closes the transport and surfaces the recorded network exception or
the original failure. Then set `_mustReconnect` for the next send
(keep-alive wanted but denied by the response) and construct the input
stream per `responseStreamKind`. `priorResponse` is the caller's response
object, used as-is when `_responseReceived` is already set. -/
def Session.receiveResponse (s : Session) (reads : List Response)
    (priorResponse : Response) : ReceiveOutcome :=
  let s1 : Session := { s with pRequestStream := none }
  if s1.netException then
    { result := .error .networkError, state := s1, response := none }
  else
    let finalResp := if s1.responseReceived then some priorResponse
                     else drainContinues reads
    match finalResp with
    | none =>
        { result := .error .networkError, state := s1.close, response := none }
    | some resp =>
        let s2 : Session :=
          { s1 with mustReconnectFlag := s1.keepAlive && !resp.keepAlive }
        let kind := responseStreamKind s2.expectResponseBody resp
        { result := .ok kind,
          state := { s2 with pResponseStream := some kind },
          response := some resp }

/-- Everything observable about one `proxyConnect` call: the nested
session's target and proxy configuration, the CONNECT request as sent, and
the outcome (`ok` meaning the nested session's socket was detached for
adoption). `proxyResponse` is the head the proxy answers with. -/
structure ProxyConnectOutcome where
  nestedHost : String
  nestedPort : Nat
  nestedProxyConfig : ProxyConfig
  nestedKeepAlive : Bool
  connectRequest : Request
  result : Except SessionError Unit
deriving Repr

/-- `HTTPClientSession::proxyConnect`: build a nested session to the proxy
host/port with a default-constructed (empty) proxy config, send an HTTP/1.1
CONNECT request for `host:port` with `Proxy-Connection: keep-alive`, a
`Host` header, and proxy credentials via `proxyAuthenticateImpl`; require a
200 response, any other status raising an `HTTPException` that carries the
proxy's reason phrase; on 200 detach the nested session's socket. -/
def Session.proxyConnect (s : Session) (proxyResponse : Response) :
    ProxyConnectOutcome :=
  let targetAddress := s.host ++ ":" ++ toString s.port
  let req0 : Request :=
    { method := "CONNECT", uri := targetAddress, version := "HTTP/1.1",
      headers := [], chunked := false, contentLength := none, keepAlive := true }
  let req1 := req0.setHeader "Proxy-Connection" "keep-alive"
  let req2 := req1.setHeader "Host" s.host
  let req3 := Session.proxyAuthenticateImpl s.proxyConfig req2
  { nestedHost := s.proxyConfig.host,
    nestedPort := s.proxyConfig.port,
    nestedProxyConfig := ProxyConfig.empty,
    nestedKeepAlive := true,
    connectRequest := req3,
    result :=
      if proxyResponse.status ≠ 200 then
        .error (.proxyError proxyResponse.reason)
      else .ok () }

/-- `HTTPClientSession::proxyTunnel`: run `proxyConnect` and attach the
detached socket as this session's transport; on failure the exception
propagates before any attach, leaving the outer session untouched. -/
def Session.proxyTunnel (s : Session) (proxyResponse : Response) :
    Except SessionError Session :=
  match (s.proxyConnect proxyResponse).result with
  | .error e => .error e
  | .ok _ => .ok { s with connected := true }

/-- A disconnected session with default-ish configuration, used as the base
of the concrete test fixtures below. -/
def baseSession : Session :=
  { host := "example.com", port := 80,
    proxyConfig := ProxyConfig.empty,
    keepAliveTimeout := 8, lastRequest := 0,
    keepAlive := true, reconnectFlag := false, mustReconnectFlag := false,
    expectResponseBody := true, responseReceived := false,
    connected := false, netException := false,
    pRequestStream := none, pResponseStream := none }

/-- A session whose transport is already connected, keep-alive on, forced
reconnect clear, keep-alive timeout far from elapsed. -/
def connectedKeepAliveSession : Session :=
  { baseSession with connected := true, keepAliveTimeout := 100 }

/-- A plain GET request that already carries a Host header. -/
def simpleGetRequest : Request :=
  { method := "GET", uri := "/path", version := "HTTP/1.1",
    headers := [("Host", "example.com:80")], chunked := false,
    contentLength := none, keepAlive := true }

/-- A POST request with a declared content length of 5 bytes. -/
def postRequestLen5 : Request :=
  { simpleGetRequest with method := "POST", contentLength := some 5 }

/-- A final 200 response with a declared content length. -/
def finalResponse200 : Response :=
  { status := 200, reason := "OK", chunked := false,
    contentLength := some 5, keepAlive := true }

/-- A session that has just sent a HEAD request (no response body
expected). -/
def headSession : Session :=
  { baseSession with expectResponseBody := false }

/-- A 200 response carrying a content length of 500. -/
def response500 : Response :=
  { status := 200, reason := "OK", chunked := false,
    contentLength := some 500, keepAlive := true }

/-- A session configured with a proxy `proxy:3128` and credentials. -/
def proxySession : Session :=
  { baseSession with proxyConfig :=
    { host := "proxy", port := 3128, username := "u", password := "p",
      nonProxyHosts := "" } }

/-- A 407 Proxy Authentication Required response. -/
def response407 : Response :=
  { status := 407, reason := "Proxy Authentication Required", chunked := false,
    contentLength := none, keepAlive := true }

section HelperLemmas

/-- `setHeader` touches only the header list. -/
@[simp] theorem Request.setHeader_chunked (r : Request) (n v : String) :
    (r.setHeader n v).chunked = r.chunked := by
  unfold Request.setHeader; split <;> rfl

@[simp] theorem Request.setHeader_contentLength (r : Request) (n v : String) :
    (r.setHeader n v).contentLength = r.contentLength := by
  unfold Request.setHeader; split <;> rfl

@[simp] theorem Request.setHeader_method (r : Request) (n v : String) :
    (r.setHeader n v).method = r.method := by
  unfold Request.setHeader; split <;> rfl

@[simp] theorem Request.setHeader_uri (r : Request) (n v : String) :
    (r.setHeader n v).uri = r.uri := by
  unfold Request.setHeader; split <;> rfl

@[simp] theorem Request.setHeader_keepAlive (r : Request) (n v : String) :
    (r.setHeader n v).keepAlive = r.keepAlive := by
  unfold Request.setHeader; split <;> rfl

/-- After `setHeader name value` the header `name` is present. -/
theorem Request.hasHeader_setHeader_self (r : Request) (n v : String) :
    (r.setHeader n v).hasHeader n = true := by
  unfold Request.setHeader
  split
  · next hhas =>
    unfold Request.hasHeader at hhas ⊢
    simp only [List.any_eq_true] at hhas ⊢
    obtain ⟨x, hx, hx1⟩ := hhas
    refine ⟨(n, v), ?_, by simp⟩
    simp only [List.mem_map]
    have hx1' : x.1 = n := by simpa using hx1
    exact ⟨x, hx, by simp [hx1']⟩
  · unfold Request.hasHeader
    simp

/-- `proxyAuthenticateImpl` never touches the framing-relevant fields. -/
@[simp] theorem proxyAuthenticateImpl_chunked (cfg : ProxyConfig) (r : Request) :
    (Session.proxyAuthenticateImpl cfg r).chunked = r.chunked := by
  unfold Session.proxyAuthenticateImpl credProxyAuthenticate; split <;> simp

@[simp] theorem proxyAuthenticateImpl_contentLength (cfg : ProxyConfig) (r : Request) :
    (Session.proxyAuthenticateImpl cfg r).contentLength = r.contentLength := by
  unfold Session.proxyAuthenticateImpl credProxyAuthenticate; split <;> simp

@[simp] theorem proxyAuthenticateImpl_method (cfg : ProxyConfig) (r : Request) :
    (Session.proxyAuthenticateImpl cfg r).method = r.method := by
  unfold Session.proxyAuthenticateImpl credProxyAuthenticate; split <;> simp

@[simp] theorem proxyAuthenticateImpl_uri (cfg : ProxyConfig) (r : Request) :
    (Session.proxyAuthenticateImpl cfg r).uri = r.uri := by
  unfold Session.proxyAuthenticateImpl credProxyAuthenticate; split <;> simp

/-- With an empty proxy username `proxyAuthenticateImpl` is the identity. -/
theorem proxyAuthenticateImpl_empty_username (cfg : ProxyConfig) (r : Request)
    (h : cfg.username = "") : Session.proxyAuthenticateImpl cfg r = r := by
  unfold Session.proxyAuthenticateImpl
  simp [h]

/-- With a non-empty proxy username `proxyAuthenticateImpl` applies the
credential encoder. -/
theorem proxyAuthenticateImpl_nonempty_username (cfg : ProxyConfig) (r : Request)
    (h : cfg.username ≠ "") :
    Session.proxyAuthenticateImpl cfg r
      = credProxyAuthenticate cfg.username cfg.password r := by
  unfold Session.proxyAuthenticateImpl
  simp [h]

/-- `applyKeepAlive` touches only the keep-alive field. -/
@[simp] theorem applyKeepAlive_chunked (ka : Bool) (r : Request) :
    (Session.applyKeepAlive ka r).chunked = r.chunked := by
  unfold Session.applyKeepAlive; split <;> rfl

@[simp] theorem applyKeepAlive_contentLength (ka : Bool) (r : Request) :
    (Session.applyKeepAlive ka r).contentLength = r.contentLength := by
  unfold Session.applyKeepAlive; split <;> rfl

@[simp] theorem applyKeepAlive_method (ka : Bool) (r : Request) :
    (Session.applyKeepAlive ka r).method = r.method := by
  unfold Session.applyKeepAlive; split <;> rfl

@[simp] theorem applyKeepAlive_uri (ka : Bool) (r : Request) :
    (Session.applyKeepAlive ka r).uri = r.uri := by
  unfold Session.applyKeepAlive; split <;> rfl

@[simp] theorem applyKeepAlive_headers (ka : Bool) (r : Request) :
    (Session.applyKeepAlive ka r).headers = r.headers := by
  unfold Session.applyKeepAlive; split <;> rfl

/-- `applyHostHeader` touches only the header list. -/
@[simp] theorem applyHostHeader_chunked (s : Session) (r : Request) :
    (s.applyHostHeader r).chunked = r.chunked := by
  unfold Session.applyHostHeader Request.setHostHeader; split <;> simp

@[simp] theorem applyHostHeader_contentLength (s : Session) (r : Request) :
    (s.applyHostHeader r).contentLength = r.contentLength := by
  unfold Session.applyHostHeader Request.setHostHeader; split <;> simp

@[simp] theorem applyHostHeader_method (s : Session) (r : Request) :
    (s.applyHostHeader r).method = r.method := by
  unfold Session.applyHostHeader Request.setHostHeader; split <;> simp

@[simp] theorem applyHostHeader_uri (s : Session) (r : Request) :
    (s.applyHostHeader r).uri = r.uri := by
  unfold Session.applyHostHeader Request.setHostHeader; split <;> simp

/-- `applyProxyRewrite` preserves the framing-relevant fields. -/
@[simp] theorem applyProxyRewrite_chunked (s : Session)
    (m : String → String → Bool) (r : Request) :
    (s.applyProxyRewrite m r).chunked = r.chunked := by
  unfold Session.applyProxyRewrite; split <;> simp

@[simp] theorem applyProxyRewrite_contentLength (s : Session)
    (m : String → String → Bool) (r : Request) :
    (s.applyProxyRewrite m r).contentLength = r.contentLength := by
  unfold Session.applyProxyRewrite; split <;> simp

@[simp] theorem applyProxyRewrite_method (s : Session)
    (m : String → String → Bool) (r : Request) :
    (s.applyProxyRewrite m r).method = r.method := by
  unfold Session.applyProxyRewrite; split <;> simp

/-- `initialClose` touches only the connected flag and the
forced-reconnect flag. -/
@[simp] theorem initialClose_host (s : Session) (now : Int) (ka : Bool) :
    (s.initialClose now ka).host = s.host := by
  unfold Session.initialClose; split <;> rfl

@[simp] theorem initialClose_port (s : Session) (now : Int) (ka : Bool) :
    (s.initialClose now ka).port = s.port := by
  unfold Session.initialClose; split <;> rfl

@[simp] theorem initialClose_proxyConfig (s : Session) (now : Int) (ka : Bool) :
    (s.initialClose now ka).proxyConfig = s.proxyConfig := by
  unfold Session.initialClose; split <;> rfl

@[simp] theorem initialClose_keepAlive (s : Session) (now : Int) (ka : Bool) :
    (s.initialClose now ka).keepAlive = s.keepAlive := by
  unfold Session.initialClose; split <;> rfl

@[simp] theorem initialClose_pRequestStream (s : Session) (now : Int) (ka : Bool) :
    (s.initialClose now ka).pRequestStream = s.pRequestStream := by
  unfold Session.initialClose; split <;> rfl

@[simp] theorem initialClose_netException (s : Session) (now : Int) (ka : Bool) :
    (s.initialClose now ka).netException = s.netException := by
  unfold Session.initialClose; split <;> rfl

@[simp] theorem initialClose_responseReceived (s : Session) (now : Int) (ka : Bool) :
    (s.initialClose now ka).responseReceived = s.responseReceived := by
  unfold Session.initialClose; split <;> rfl

/-- `bypassProxy` reads only the host and the proxy configuration, which
the pre-framing stages of `sendRequest` never change. -/
@[simp] theorem bypassProxy_initialClose (s : Session) (now : Int) (ka : Bool)
    (m : String → String → Bool) :
    (s.initialClose now ka).bypassProxy m = s.bypassProxy m := by
  unfold Session.bypassProxy
  simp

@[simp] theorem Session.close_connected (s : Session) :
    s.close.connected = false := rfl

@[simp] theorem Session.close_pRequestStream (s : Session) :
    s.close.pRequestStream = s.pRequestStream := rfl

end HelperLemmas

/-- C1 (code bug): with the transport already connected after the initial
keep-alive/forced-reconnect close decision (keep-alive on, forced-reconnect
flag clear, keep-alive timeout of 100 not elapsed at now = 5), `sendRequest`
still invokes `reconnect()`: the braceless `if (!connected())` at lines
248–251 guards only the first debug-log statement, so the reconnect call is
unconditional, contradicting "no reconnect is attempted when already
connected". -/
theorem sendRequest_reconnects_while_connected :
    (connectedKeepAliveSession.sendRequest simpleGetRequest (fun _ _ => false)
        { connectFails := false, headWriteFails := false } 5).connectedBeforeReconnect
      = true ∧
    (connectedKeepAliveSession.sendRequest simpleGetRequest (fun _ _ => false)
        { connectFails := false, headWriteFails := false } 5).reconnectAttempted
      = true := by
  exact ⟨rfl, rfl⟩

/-- C2: counterexample — a fresh session reads a final 200 response through
`peekResponse`; the pending-response flag becomes true, yet the function
returns `false` (`return !_responseReceived;`), refuting "the boolean
returned by peekResponse is true exactly when a final (non-continue)
response was obtained". -/
theorem peekResponse_returns_false_on_final_response :
    (baseSession.peekResponse (some finalResponse200)).result = .ok false ∧
    (baseSession.peekResponse (some finalResponse200)).state.responseReceived = true ∧
    finalResponse200.status ≠ 100 := by
  refine ⟨rfl, rfl, by decide⟩

/-- C2 (amended): for every `peekResponse` call that reads a response head
(no response pending, no recorded network failure), the pending-response
flag is set to true exactly when the status read is not the preliminary
continue status (100), and the boolean returned is the *negation* of that
flag — true exactly when the response read was a preliminary continue
response. -/
theorem peekResponse_flag_and_return (s : Session) (resp : Response)
    (hrr : s.responseReceived = false) (hne : s.netException = false) :
    (s.peekResponse (some resp)).state.responseReceived
        = decide (resp.status ≠ 100) ∧
    (s.peekResponse (some resp)).result = .ok (decide (resp.status = 100)) := by
  unfold Session.peekResponse
  simp [hrr, hne, decide_not]

/-- C2 witness: `peekResponse_flag_and_return` applied to the base session
reading a 100-continue head. -/
theorem peekResponse_flag_and_return_witness :
    (baseSession.peekResponse
        (some { finalResponse200 with status := 100 })).state.responseReceived
      = decide (({ finalResponse200 with status := 100 } : Response).status ≠ 100) ∧
    (baseSession.peekResponse
        (some { finalResponse200 with status := 100 })).result
      = .ok (decide (({ finalResponse200 with status := 100 } : Response).status = 100)) :=
  peekResponse_flag_and_return baseSession { finalResponse200 with status := 100 }
    rfl rfl

/-- C3: counterexample — on a session whose transport is connected,
`setProxyCredentials` succeeds and updates the proxy username and password:
the source performs no `connected()` check in `setProxyCredentials`,
`setProxyUsername`, `setProxyPassword` or `setProxyConfig`, refuting "every
setter of a connection-identity field raises a state error while
connected". -/
theorem setProxyCredentials_succeeds_while_connected :
    connectedKeepAliveSession.connected = true ∧
    connectedKeepAliveSession.setProxyCredentials "u" "p"
      = Except.ok { connectedKeepAliveSession with proxyConfig :=
          { ProxyConfig.empty with username := "u", password := "p" } } := by
  exact ⟨rfl, rfl⟩

/-- C3 (amended): the host, port, proxy-host, proxy-port and combined
proxy-host-and-port setters raise a state error while the transport is
connected, leaving the session unchanged, and update the field while not
connected; the proxy-credential setters (username, password, both) and the
full proxy-config setter update the field unconditionally, connected or
not. -/
theorem setters_guard_connection_identity (s : Session) (h u pw : String)
    (n : Nat) (cfg : ProxyConfig) :
    (s.connected = true →
      s.setHost h = .error .stateError ∧
      s.setPort n = .error .stateError ∧
      s.setProxy h n = .error .stateError ∧
      s.setProxyHost h = .error .stateError ∧
      s.setProxyPort n = .error .stateError) ∧
    (s.connected = false →
      s.setHost h = .ok { s with host := h } ∧
      s.setPort n = .ok { s with port := n } ∧
      s.setProxy h n
        = .ok { s with proxyConfig := { s.proxyConfig with host := h, port := n } } ∧
      s.setProxyHost h
        = .ok { s with proxyConfig := { s.proxyConfig with host := h } } ∧
      s.setProxyPort n
        = .ok { s with proxyConfig := { s.proxyConfig with port := n } }) ∧
    s.setProxyCredentials u pw
      = .ok { s with proxyConfig :=
          { s.proxyConfig with username := u, password := pw } } ∧
    s.setProxyUsername u
      = .ok { s with proxyConfig := { s.proxyConfig with username := u } } ∧
    s.setProxyPassword pw
      = .ok { s with proxyConfig := { s.proxyConfig with password := pw } } ∧
    s.setProxyConfig cfg = .ok { s with proxyConfig := cfg } := by
  refine ⟨fun hc => ?_, fun hc => ?_, rfl, rfl, rfl, rfl⟩
  · simp [Session.setHost, Session.setPort, Session.setProxy,
      Session.setProxyHost, Session.setProxyPort, hc]
  · simp [Session.setHost, Session.setPort, Session.setProxy,
      Session.setProxyHost, Session.setProxyPort, hc]

/-- C3 witness: the guarded setters reject on a connected session and
succeed on the base (disconnected) session. -/
theorem setters_guard_connection_identity_witness :
    connectedKeepAliveSession.setHost "x" = .error .stateError ∧
    baseSession.setHost "x" = .ok { baseSession with host := "x" } :=
  ⟨((setters_guard_connection_identity connectedKeepAliveSession "x" "u" "p" 1
      ProxyConfig.empty).1 rfl).1,
   ((setters_guard_connection_identity baseSession "x" "u" "p" 1
      ProxyConfig.empty).2.1 rfl).1⟩

/-- C4: counterexample — `sendRequest` of a content-length request whose
head write fails: the exception propagates and the transport is closed, but
the output-stream handle is *not* left null: `_pRequestStream` was assigned
the fixed-length stream before `request.write(*_pRequestStream)` threw, and
the catch clause only closes; this refutes "the session's output stream
handle is left null". -/
theorem sendRequest_write_failure_leaves_stream_handle :
    (connectedKeepAliveSession.sendRequest postRequestLen5 (fun _ _ => false)
        { connectFails := false, headWriteFails := true } 5).result
      = .error .networkError ∧
    (connectedKeepAliveSession.sendRequest postRequestLen5 (fun _ _ => false)
        { connectFails := false, headWriteFails := true } 5).state.connected
      = false ∧
    (connectedKeepAliveSession.sendRequest postRequestLen5 (fun _ _ => false)
        { connectFails := false, headWriteFails := true } 5).state.pRequestStream
      = some (.fixedLength (5 + postRequestLen5.headByteCount)) := by
  refine ⟨rfl, rfl, rfl⟩

/-- C4 (amended): for every `sendRequest` call that fails with an exception
at any step, the transport is closed before the exception propagates; the
output-stream handle is left null when the failure precedes the
construction of the output stream (e.g. a connect failure), but a failure
while writing the head through an already-constructed stream leaves that
handle set. -/
theorem sendRequest_failure_closes_transport
    (s : Session) (req : Request) (m : String → String → Bool)
    (io : Faults) (now : Int) (e : SessionError)
    (herr : (s.sendRequest req m io now).result = .error e) :
    (s.sendRequest req m io now).state.connected = false ∧
    (io.connectFails = true →
      (s.sendRequest req m io now).state.pRequestStream = none) := by
  rcases io with ⟨cf, hw⟩
  cases cf
  · cases hw
    · exfalso
      simp [Session.sendRequest] at herr
    · refine ⟨by simp [Session.sendRequest], fun hcontra => by simp at hcontra⟩
  · refine ⟨by simp [Session.sendRequest], fun _ => ?_⟩
    simp [Session.sendRequest]

/-- C4 witness: `sendRequest_failure_closes_transport` applied to a
connect failure on the base session. -/
theorem sendRequest_failure_closes_transport_witness :
    (baseSession.sendRequest simpleGetRequest (fun _ _ => false)
        { connectFails := true, headWriteFails := false } 5).state.connected
      = false ∧
    ((true : Bool) = true →
      (baseSession.sendRequest simpleGetRequest (fun _ _ => false)
          { connectFails := true, headWriteFails := false } 5).state.pRequestStream
        = none) :=
  sendRequest_failure_closes_transport baseSession simpleGetRequest
    (fun _ _ => false) { connectFails := true, headWriteFails := false } 5
    .networkError rfl

/-- C5: for every request that is not chunked and declares an explicit
content length, `sendRequest` constructs a fixed-length output stream
bounded by the declared length plus the byte count of the serialized header
block (the counting trial write), and the request head is then written
through that same bounded stream. -/
theorem sendRequest_contentLength_framing (s : Session) (req : Request)
    (m : String → String → Bool) (now : Int) (n : Nat)
    (hch : req.chunked = false) (hcl : req.contentLength = some n) :
    (s.sendRequest req m { connectFails := false, headWriteFails := false }
        now).state.pRequestStream
      = some (.fixedLength (n +
          (s.sendRequest req m { connectFails := false, headWriteFails := false }
              now).request.headByteCount)) ∧
    (s.sendRequest req m { connectFails := false, headWriteFails := false }
        now).headViaRequestStream = true ∧
    (s.sendRequest req m { connectFails := false, headWriteFails := false }
        now).result = .ok () := by
  refine ⟨?_, ?_, ?_⟩ <;>
    simp [Session.sendRequest, requestStreamKind, hch, hcl]

/-- C5 witness: `sendRequest_contentLength_framing` on the POST fixture
with content length 5. -/
theorem sendRequest_contentLength_framing_witness :
    (baseSession.sendRequest postRequestLen5 (fun _ _ => false)
        { connectFails := false, headWriteFails := false } 5).state.pRequestStream
      = some (.fixedLength (5 +
          (baseSession.sendRequest postRequestLen5 (fun _ _ => false)
              { connectFails := false, headWriteFails := false } 5).request.headByteCount)) ∧
    (baseSession.sendRequest postRequestLen5 (fun _ _ => false)
        { connectFails := false, headWriteFails := false } 5).headViaRequestStream
      = true ∧
    (baseSession.sendRequest postRequestLen5 (fun _ _ => false)
        { connectFails := false, headWriteFails := false } 5).result = .ok () :=
  sendRequest_contentLength_framing baseSession postRequestLen5
    (fun _ _ => false) 5 5 rfl rfl

/-- C6: for every response processed by `receiveResponse` (here: the final
head the call ends with), the input stream is selected in priority order —
length-0 fixed stream when no body is expected (the previous request's
method was HEAD, as recorded by `sendRequest`) or the status is
informational (< 200) / no-content (204) / not-modified (304), even if a
content length is declared; otherwise chunked beats a present content
length; otherwise a declared content length gives a fixed stream of exactly
that length; otherwise the close-delimited unbounded stream. -/
theorem receiveResponse_input_framing (s : Session) (reads : List Response)
    (prior resp : Response) (n : Nat)
    (hne : s.netException = false)
    (hfr : (if s.responseReceived = true then some prior
            else drainContinues reads) = some resp) :
    ((s.receiveResponse reads prior).result
        = .ok (responseStreamKind s.expectResponseBody resp)) ∧
    ((s.expectResponseBody = false ∨ resp.status < 200 ∨ resp.status = 204
        ∨ resp.status = 304) →
      responseStreamKind s.expectResponseBody resp = .fixedLength 0) ∧
    (s.expectResponseBody = true → 200 ≤ resp.status → resp.status ≠ 204 →
      resp.status ≠ 304 → resp.chunked = true →
      responseStreamKind s.expectResponseBody resp = .chunked) ∧
    (s.expectResponseBody = true → 200 ≤ resp.status → resp.status ≠ 204 →
      resp.status ≠ 304 → resp.chunked = false → resp.contentLength = some n →
      responseStreamKind s.expectResponseBody resp = .fixedLength n) ∧
    (s.expectResponseBody = true → 200 ≤ resp.status → resp.status ≠ 204 →
      resp.status ≠ 304 → resp.chunked = false → resp.contentLength = none →
      responseStreamKind s.expectResponseBody resp = .unbounded) ∧
    (∀ (req : Request) (m : String → String → Bool) (io : Faults) (now : Int),
      (s.sendRequest req m io now).result = .ok () →
      (s.sendRequest req m io now).state.expectResponseBody
        = decide (req.method ≠ "HEAD")) := by
  refine ⟨?_, ?_, ?_, ?_, ?_, ?_⟩
  · unfold Session.receiveResponse
    simp [hne, hfr]
  · intro hd
    unfold responseStreamKind
    rcases hd with hd | hd | hd | hd <;> simp [hd]
  · intro hb hs h204 h304 hch
    unfold responseStreamKind
    simp [hb, hch, h204, h304, Nat.not_lt.mpr hs]
  · intro hb hs h204 h304 hch hcl
    unfold responseStreamKind
    simp [hb, hch, hcl, h204, h304, Nat.not_lt.mpr hs]
  · intro hb hs h204 h304 hch hcl
    unfold responseStreamKind
    simp [hb, hch, hcl, h204, h304, Nat.not_lt.mpr hs]
  · intro req m io now hok
    rcases io with ⟨cf, hw⟩
    cases cf
    · cases hw
      · simp [Session.sendRequest]
      · exfalso; simp [Session.sendRequest] at hok
    · exfalso; simp [Session.sendRequest] at hok

/-- C6 witness: the spec scenario — after a HEAD request, a 200 response
with content length 500 still gets a length-0 input stream. -/
theorem receiveResponse_input_framing_witness :
    ((headSession.receiveResponse [response500] response500).result
        = .ok (responseStreamKind headSession.expectResponseBody response500)) ∧
    ((headSession.expectResponseBody = false ∨ response500.status < 200
        ∨ response500.status = 204 ∨ response500.status = 304) →
      responseStreamKind headSession.expectResponseBody response500
        = .fixedLength 0) ∧
    (headSession.expectResponseBody = true → 200 ≤ response500.status →
      response500.status ≠ 204 → response500.status ≠ 304 →
      response500.chunked = true →
      responseStreamKind headSession.expectResponseBody response500 = .chunked) ∧
    (headSession.expectResponseBody = true → 200 ≤ response500.status →
      response500.status ≠ 204 → response500.status ≠ 304 →
      response500.chunked = false → response500.contentLength = some 500 →
      responseStreamKind headSession.expectResponseBody response500
        = .fixedLength 500) ∧
    (headSession.expectResponseBody = true → 200 ≤ response500.status →
      response500.status ≠ 204 → response500.status ≠ 304 →
      response500.chunked = false → response500.contentLength = none →
      responseStreamKind headSession.expectResponseBody response500
        = .unbounded) ∧
    (∀ (req : Request) (m : String → String → Bool) (io : Faults) (now : Int),
      (headSession.sendRequest req m io now).result = .ok () →
      (headSession.sendRequest req m io now).state.expectResponseBody
        = decide (req.method ≠ "HEAD")) :=
  receiveResponse_input_framing headSession [response500] response500
    response500 500 rfl rfl

/-- C7: for every transport write performed by the session via
`HTTPClientSession::write` — a successful first attempt clears the
retryable flag and writes once; a first-attempt I/O failure with the
retryable flag clear propagates with no retry; with the flag set, the
session closes, reconnects (connection generation 1), retries the identical
buffer exactly once, and on success clears the recorded network failure and
the flag; a failure of the retry propagates with no further attempt. -/
theorem write_retries_identical_buffer_once (s : Session)
    (oracle : Nat → WriteAttempt) (b : String) :
    (∀ rc, oracle 0 = .ok rc →
      (s.write oracle b).result = .ok rc ∧
      (s.write oracle b).state.reconnectFlag = false ∧
      (s.write oracle b).sent = [(b, 0)]) ∧
    (oracle 0 = .ioError → s.reconnectFlag = false →
      (s.write oracle b).result = .error .networkError ∧
      (s.write oracle b).sent = [(b, 0)]) ∧
    (∀ rc, oracle 0 = .ioError → s.reconnectFlag = true → oracle 1 = .ok rc →
      (s.write oracle b).result = .ok rc ∧
      (s.write oracle b).state.netException = false ∧
      (s.write oracle b).state.reconnectFlag = false ∧
      (s.write oracle b).state.connected = true ∧
      (s.write oracle b).sent = [(b, 0), (b, 1)]) ∧
    (oracle 0 = .ioError → s.reconnectFlag = true → oracle 1 = .ioError →
      (s.write oracle b).result = .error .networkError ∧
      (s.write oracle b).sent = [(b, 0), (b, 1)]) := by
  refine ⟨?_, ?_, ?_, ?_⟩
  · intro rc h0
    unfold Session.write
    simp [h0]
  · intro h0 hrf
    unfold Session.write
    simp [h0, hrf]
  · intro rc h0 hrf h1
    unfold Session.write
    simp [h0, hrf, h1, Session.close]
  · intro h0 hrf h1
    unfold Session.write
    simp [h0, hrf, h1]

/-- C7 witness: `write_retries_identical_buffer_once` on a transport whose
first write fails and whose retry succeeds, with the retryable flag set. -/
theorem write_retries_identical_buffer_once_witness :
    (({ baseSession with reconnectFlag := true } : Session).write
        (fun i => if i = 0 then .ioError else .ok 7) "abc").result = .ok 7 ∧
    (({ baseSession with reconnectFlag := true } : Session).write
        (fun i => if i = 0 then .ioError else .ok 7) "abc").state.netException
      = false ∧
    (({ baseSession with reconnectFlag := true } : Session).write
        (fun i => if i = 0 then .ioError else .ok 7) "abc").state.reconnectFlag
      = false ∧
    (({ baseSession with reconnectFlag := true } : Session).write
        (fun i => if i = 0 then .ioError else .ok 7) "abc").state.connected
      = true ∧
    (({ baseSession with reconnectFlag := true } : Session).write
        (fun i => if i = 0 then .ioError else .ok 7) "abc").sent
      = [("abc", 0), ("abc", 1)] :=
  (write_retries_identical_buffer_once { baseSession with reconnectFlag := true }
      (fun i => if i = 0 then .ioError else .ok 7) "abc").2.2.1 7 rfl rfl rfl

/-- C8: every CONNECT tunnel negotiation builds a nested session to the
proxy host/port with an empty (no-proxying) proxy config, sends a CONNECT
request naming `host:port` with a `Proxy-Connection: keep-alive` header and
the proxy credentials (injected via the credential step when a username is
configured); a non-200 proxy status raises a proxy-negotiation error
carrying the proxy's reason phrase and no transport is adopted by the
outer session; a 200 status attaches the detached connection as the outer
session's transport. -/
theorem proxyConnect_tunnel_negotiation (s : Session) (resp : Response) :
    (s.proxyConnect resp).nestedHost = s.proxyConfig.host ∧
    (s.proxyConnect resp).nestedPort = s.proxyConfig.port ∧
    (s.proxyConnect resp).nestedProxyConfig = ProxyConfig.empty ∧
    (s.proxyConnect resp).connectRequest.method = "CONNECT" ∧
    (s.proxyConnect resp).connectRequest.uri = s.host ++ ":" ++ toString s.port ∧
    (s.proxyConnect resp).connectRequest.getHeader "Proxy-Connection"
      = some "keep-alive" ∧
    (s.proxyConfig.username ≠ "" →
      (s.proxyConnect resp).connectRequest.hasHeader "Proxy-Authorization"
        = true) ∧
    (resp.status ≠ 200 →
      s.proxyTunnel resp = .error (.proxyError resp.reason)) ∧
    (resp.status = 200 →
      s.proxyTunnel resp = .ok { s with connected := true }) := by
  refine ⟨rfl, rfl, rfl, by simp [Session.proxyConnect], ?_, ?_, ?_, ?_, ?_⟩
  · simp [Session.proxyConnect]
  · by_cases hu : s.proxyConfig.username = "" <;>
      simp [Session.proxyConnect, Session.proxyAuthenticateImpl,
        credProxyAuthenticate, Request.setHeader, Request.getHeader,
        Request.hasHeader, hu]
  · intro hu
    unfold Session.proxyConnect
    simp only [proxyAuthenticateImpl_nonempty_username _ _ hu,
      credProxyAuthenticate]
    exact Request.hasHeader_setHeader_self _ _ _
  · intro hst
    unfold Session.proxyTunnel Session.proxyConnect
    simp [hst]
  · intro hst
    unfold Session.proxyTunnel Session.proxyConnect
    simp [hst]

/-- C8 witness: the spec scenario — a 407 from the proxy raises a proxy
error with the proxy's reason phrase and adopts no transport. -/
theorem proxyConnect_tunnel_negotiation_witness :
    proxySession.proxyTunnel response407
      = .error (.proxyError response407.reason) :=
  (proxyConnect_tunnel_negotiation proxySession response407).2.2.2.2.2.2.2.1
    (by decide)

/-- C9: with a configured proxy host, `bypassProxy` is false for an empty
non-proxy pattern and otherwise delegates to the caseless fully-anchored
matcher on the target host; a bypassed request is not rewritten and gets no
proxy headers, while a non-bypassed request has its target rewritten to
`http://host:port` plus the original target and receives proxy credential
headers (when a proxy username is configured). -/
theorem sendRequest_proxy_bypass_routing (s : Session) (req : Request)
    (m : String → String → Bool) (now : Int)
    (hph : s.proxyConfig.host ≠ "")
    (hhost : req.hasHeader "Host" = true)
    (hka : s.keepAlive = true) :
    (s.proxyConfig.nonProxyHosts = "" → s.bypassProxy m = false) ∧
    (s.proxyConfig.nonProxyHosts ≠ "" →
      s.bypassProxy m = m s.host s.proxyConfig.nonProxyHosts) ∧
    (s.bypassProxy m = true →
      (s.sendRequest req m { connectFails := false, headWriteFails := false }
          now).request = req) ∧
    (s.bypassProxy m = false →
      (s.sendRequest req m { connectFails := false, headWriteFails := false }
          now).request.uri
        = "http://" ++ s.host ++ ":" ++ toString s.port ++ req.uri ∧
      (s.proxyConfig.username ≠ "" →
        (s.sendRequest req m { connectFails := false, headWriteFails := false }
            now).request.hasHeader "Proxy-Authorization" = true)) := by
  refine ⟨?_, ?_, ?_, ?_⟩
  · intro hnp
    unfold Session.bypassProxy
    simp [hnp]
  · intro hnp
    unfold Session.bypassProxy
    simp [hnp]
  · intro hbp
    simp only [Session.bypassProxy] at hbp
    simp [Session.sendRequest, Session.applyKeepAlive, Session.applyHostHeader,
      Session.applyProxyRewrite, Session.bypassProxy, hka, hhost, hbp]
  · intro hbp
    simp only [Session.bypassProxy] at hbp
    constructor
    · simp [Session.sendRequest, Session.applyKeepAlive, Session.applyHostHeader,
        Session.applyProxyRewrite, Session.bypassProxy,
        Session.proxyRequestPrefixStr, hka, hhost, hbp, hph]
    · intro hu
      simp [Session.sendRequest, Session.applyKeepAlive,
        Session.applyHostHeader, Session.applyProxyRewrite,
        Session.bypassProxy, hka, hhost, hbp, hph,
        proxyAuthenticateImpl_nonempty_username _ _ hu, credProxyAuthenticate,
        Request.hasHeader_setHeader_self]

/-- C9 witness: the proxy session with empty bypass pattern: nothing
bypasses, the GET fixture's target is rewritten to the absolute URI, and
credentials are added. -/
theorem sendRequest_proxy_bypass_routing_witness :
    (proxySession.proxyConfig.nonProxyHosts = ""
      → proxySession.bypassProxy (fun _ _ => false) = false) ∧
    (proxySession.proxyConfig.nonProxyHosts ≠ "" →
      proxySession.bypassProxy (fun _ _ => false)
        = (fun _ _ => false) proxySession.host
            proxySession.proxyConfig.nonProxyHosts) ∧
    (proxySession.bypassProxy (fun _ _ => false) = true →
      (proxySession.sendRequest simpleGetRequest (fun _ _ => false)
          { connectFails := false, headWriteFails := false } 5).request
        = simpleGetRequest) ∧
    (proxySession.bypassProxy (fun _ _ => false) = false →
      (proxySession.sendRequest simpleGetRequest (fun _ _ => false)
          { connectFails := false, headWriteFails := false } 5).request.uri
        = "http://" ++ proxySession.host ++ ":" ++ toString proxySession.port
            ++ simpleGetRequest.uri ∧
      (proxySession.proxyConfig.username ≠ "" →
        (proxySession.sendRequest simpleGetRequest (fun _ _ => false)
            { connectFails := false, headWriteFails := false } 5).request.hasHeader
          "Proxy-Authorization" = true)) :=
  sendRequest_proxy_bypass_routing proxySession simpleGetRequest
    (fun _ _ => false) 5 (by decide) rfl rfl

/-- C10: proxy authentication headers are injected exactly when the
configured proxy username is non-empty: `proxyAuthenticateImpl` is the
identity for an empty username and sets the proxy-authorization header
otherwise; with an empty username a non-bypassed `sendRequest` leaves the
request's headers unchanged while still rewriting the target URI; and the
same condition governs credential injection on the CONNECT request of
`proxyConnect`. -/
theorem proxyAuthenticate_iff_username (cfg : ProxyConfig) (r : Request)
    (s : Session) (req : Request) (m : String → String → Bool) (now : Int)
    (presp : Response)
    (hph : s.proxyConfig.host ≠ "")
    (hbp : s.bypassProxy m = false)
    (hhost : req.hasHeader "Host" = true)
    (hka : s.keepAlive = true)
    (hu : s.proxyConfig.username = "") :
    (cfg.username = "" → Session.proxyAuthenticateImpl cfg r = r) ∧
    (cfg.username ≠ "" →
      (Session.proxyAuthenticateImpl cfg r).hasHeader "Proxy-Authorization"
        = true) ∧
    ((s.sendRequest req m { connectFails := false, headWriteFails := false }
        now).request.headers = req.headers ∧
     (s.sendRequest req m { connectFails := false, headWriteFails := false }
        now).request.uri
       = "http://" ++ s.host ++ ":" ++ toString s.port ++ req.uri) ∧
    ((s.proxyConnect presp).connectRequest.hasHeader "Proxy-Authorization"
        = false) ∧
    (cfg.username ≠ "" →
      (({ s with proxyConfig := cfg } : Session).proxyConnect
          presp).connectRequest.hasHeader "Proxy-Authorization" = true) := by
  refine ⟨?_, ?_, ⟨?_, ?_⟩, ?_, ?_⟩
  · intro h
    exact proxyAuthenticateImpl_empty_username cfg r h
  · intro h
    rw [proxyAuthenticateImpl_nonempty_username cfg r h]
    exact Request.hasHeader_setHeader_self _ _ _
  · simp only [Session.bypassProxy] at hbp
    simp [Session.sendRequest, Session.applyKeepAlive, Session.applyHostHeader,
      Session.applyProxyRewrite, Session.bypassProxy, hka, hhost, hbp, hph,
      proxyAuthenticateImpl_empty_username _ _ hu]
  · simp only [Session.bypassProxy] at hbp
    simp [Session.sendRequest, Session.applyKeepAlive, Session.applyHostHeader,
      Session.applyProxyRewrite, Session.bypassProxy,
      Session.proxyRequestPrefixStr, hka, hhost, hbp, hph,
      proxyAuthenticateImpl_empty_username _ _ hu]
  · unfold Session.proxyConnect
    simp [proxyAuthenticateImpl_empty_username _ _ hu, Request.hasHeader,
      Request.setHeader]
  · intro h
    unfold Session.proxyConnect
    simp only [proxyAuthenticateImpl_nonempty_username _ _ h,
      credProxyAuthenticate]
    exact Request.hasHeader_setHeader_self _ _ _

/-- C10 witness: `proxyAuthenticate_iff_username` on a proxied session with
an empty username, with credential config `proxySession.proxyConfig`
(non-empty username) for the positive parts. -/
theorem proxyAuthenticate_iff_username_witness :
    (proxySession.proxyConfig.username = "" →
      Session.proxyAuthenticateImpl proxySession.proxyConfig simpleGetRequest
        = simpleGetRequest) ∧
    (proxySession.proxyConfig.username ≠ "" →
      (Session.proxyAuthenticateImpl proxySession.proxyConfig
          simpleGetRequest).hasHeader "Proxy-Authorization" = true) ∧
    ((({ proxySession with proxyConfig :=
          { proxySession.proxyConfig with username := "" } } : Session).sendRequest
        simpleGetRequest (fun _ _ => false)
        { connectFails := false, headWriteFails := false } 5).request.headers
        = simpleGetRequest.headers ∧
     (({ proxySession with proxyConfig :=
          { proxySession.proxyConfig with username := "" } } : Session).sendRequest
        simpleGetRequest (fun _ _ => false)
        { connectFails := false, headWriteFails := false } 5).request.uri
        = "http://"
            ++ ({ proxySession with proxyConfig :=
                  { proxySession.proxyConfig with username := "" } } : Session).host
            ++ ":"
            ++ toString ({ proxySession with proxyConfig :=
                  { proxySession.proxyConfig with username := "" } } : Session).port
            ++ simpleGetRequest.uri) ∧
    ((({ proxySession with proxyConfig :=
          { proxySession.proxyConfig with username := "" } } : Session).proxyConnect
        response407).connectRequest.hasHeader "Proxy-Authorization" = false) ∧
    (proxySession.proxyConfig.username ≠ "" →
      (({ ({ proxySession with proxyConfig :=
              { proxySession.proxyConfig with username := "" } } : Session) with
            proxyConfig := proxySession.proxyConfig } : Session).proxyConnect
          response407).connectRequest.hasHeader "Proxy-Authorization" = true) :=
  proxyAuthenticate_iff_username proxySession.proxyConfig simpleGetRequest
    { proxySession with proxyConfig :=
        { proxySession.proxyConfig with username := "" } }
    simpleGetRequest (fun _ _ => false) 5 response407
    (by decide) rfl rfl rfl rfl

end HTTPClient
